import Mathlib

/-!
Shallow embedding of the Zenobia Pay client (`ZenobiaClient`, the WebSocket
status-tracking variant of `src/unnamed/part_000`, lines 17-283; the second
WebSocket variant at lines 353-602 differs only in its backoff cap, maximum
attempt count and fixed host).

The client is a single-threaded event-driven controller.  We embed its mutable
fields as a record `ClientState` and each method / platform event handler as a
pure function `ClientState → ClientState × List Out`, where `Out` records the
externally observable effects in order: socket creations and closures, observer
callback invocations, outbound frames, timer scheduling/cancellation and
console logging.  Browser facts that the code merely reads are passed as
arguments: `secure` stands for `window.location.protocol === "https:"`, the
socket's `readyState` is the `Nat` stored in `socket` (0 CONNECTING, 1 OPEN,
2 CLOSING, 3 CLOSED).  JavaScript truthiness of the nullable string fields is
captured by `truthy` (both `null` and `""` are falsy).  Registered callbacks
are modelled by identity (`Option Nat`): the code never inspects them beyond
truthiness, and identity lets theorems say a callback was kept or replaced.
-/

namespace Zenobia

/-- Externally observable effects of the client, in program order. -/
inductive Out where
  | connOpen (url : String)
  | connClosed
  | cbConnection (connected : Bool)
  | cbStatus (transfer : String)
  | cbError (msg : String)
  | send (frame : String)
  | scheduleRetry (delayMs : Nat)
  | cancelTimer
  | logError (msg : String)
  deriving DecidableEq, Repr

/-- The mutable fields of `ZenobiaClient` (source lines 18-27). -/
structure ClientState where
  socket : Option Nat
  reconnectTimeout : Option Nat
  reconnectAttempts : Nat
  maxReconnectAttempts : Nat
  transferId : Option String
  signature : Option String
  wsBaseUrl : String
  onStatusCallback : Option Nat
  onErrorCallback : Option Nat
  onConnectionCallback : Option Nat
  deriving DecidableEq, Repr

/-- The constructor (source lines 29-33): field initialisers plus the
test/production host selection. -/
def init (isTest : Bool) : ClientState :=
  { socket := none
    reconnectTimeout := none
    reconnectAttempts := 0
    maxReconnectAttempts := 6
    transferId := none
    signature := none
    wsBaseUrl := if isTest then "transfer-status-test.zenobiapay.com"
                 else "transfer-status.zenobiapay.com"
    onStatusCallback := none
    onErrorCallback := none
    onConnectionCallback := none }

/-- JavaScript truthiness of a nullable string: `null` and `""` are falsy. -/
def truthy : Option String → Bool
  | none => false
  | some s => s != ""

/-- `notifyConnectionStatus` (source lines 260-264). -/
def notifyConnectionStatus (s : ClientState) (connected : Bool) : List Out :=
  if s.onConnectionCallback.isSome then [Out.cbConnection connected] else []

/-- `notifyStatus` (source lines 269-273). -/
def notifyStatus (s : ClientState) (t : String) : List Out :=
  if s.onStatusCallback.isSome then [Out.cbStatus t] else []

/-- `notifyError` (source lines 278-282). -/
def notifyError (s : ClientState) (msg : String) : List Out :=
  if s.onErrorCallback.isSome then [Out.cbError msg] else []

/-- `connectWebSocket` (source lines 135-208): close any existing socket
(reporting "disconnected"), fail fast on missing/empty credentials with a
console log only, otherwise build the endpoint URL and create the socket
(readyState CONNECTING). -/
def connectWebSocket (secure : Bool) (s : ClientState) : ClientState × List Out :=
  let closeOuts : List Out :=
    if s.socket.isSome then Out.connClosed :: notifyConnectionStatus s false else []
  let s1 : ClientState := { s with socket := none }
  if truthy s.transferId && truthy s.signature then
    let protocol := if secure then "wss:" else "ws:"
    let wsUrl := protocol ++ "//" ++ s.wsBaseUrl ++ "/transfers/" ++
      s.transferId.getD "" ++ "/ws?token=" ++ s.signature.getD ""
    ({ s1 with socket := some 0 }, closeOuts ++ [Out.connOpen wsUrl])
  else
    (s1, closeOuts ++
      [Out.logError "Cannot connect to WebSocket: Missing transfer ID or signature"])

/-- `attemptReconnect` (source lines 213-235): increment the attempt counter,
compute the capped exponential backoff delay from the incremented counter,
cancel any pending timer and schedule the retry.  `capDelay` is the literal cap
of the variant (30000 at line 218, 5000 at line 537). -/
def attemptReconnect (capDelay : Nat) (s : ClientState) : ClientState × List Out :=
  let s1 := { s with reconnectAttempts := s.reconnectAttempts + 1 }
  let reconnectDelay := min (1000 * 2 ^ (s1.reconnectAttempts - 1)) capDelay
  let cancel : List Out := if s1.reconnectTimeout.isSome then [Out.cancelTimer] else []
  ({ s1 with reconnectTimeout := some reconnectDelay },
   cancel ++ [Out.scheduleRetry reconnectDelay])

/-- The `socket.onopen` handler (source lines 158-161): notify "connected",
reset the attempt counter; the platform has moved readyState to OPEN. -/
def handleOpen (s : ClientState) : ClientState × List Out :=
  ({ s with socket := s.socket.map (fun _ => 1), reconnectAttempts := 0 },
   notifyConnectionStatus s true)

/-- The `socket.onclose` handler (source lines 163-173): notify "disconnected",
clear the socket, and reconnect iff the close code is not 1000 and the attempt
counter is below the maximum. -/
def handleClose (capDelay : Nat) (code : Nat) (s : ClientState) : ClientState × List Out :=
  let outs := notifyConnectionStatus s false
  let s1 : ClientState := { s with socket := none }
  if code ≠ 1000 ∧ s1.reconnectAttempts < s1.maxReconnectAttempts then
    let p := attemptReconnect capDelay s1
    (p.1, outs ++ p.2)
  else
    (s1, outs)

/-- An inbound text frame, abstracted to exactly the observations the
`onmessage` handler makes of it: either `JSON.parse` throws (`malformed`), or
it yields an object whose `type`, `transfer` and `message` fields are as
recorded (a missing or falsy field is `none`; the `transfer` payload is kept
opaque as a string). -/
inductive InMsg where
  | malformed
  | parsed (ty : Option String) (transfer : Option String) (message : Option String)
  deriving DecidableEq, Repr

/-- The `socket.onmessage` handler (source lines 183-204): dispatch on the
parsed frame; a parse failure reports "Failed to parse message"; a `ping`
answers with a `pong` frame only while the socket is OPEN; any other parsed
frame falls through every branch and is silently dropped. -/
def handleMessage (msg : InMsg) (s : ClientState) : ClientState × List Out :=
  match msg with
  | .malformed => (s, notifyError s "Failed to parse message")
  | .parsed ty transfer message =>
    if ty = some "status" ∧ transfer.isSome then
      (s, notifyStatus s (transfer.getD ""))
    else if ty = some "error" ∧ message.isSome then
      (s, notifyError s (message.getD ""))
    else if ty = some "ping" then
      (s, if s.socket = some 1 then [Out.send "\x7b\"type\":\"pong\"\x7d"] else [])
    else
      (s, [])

/-- `disconnect` (source lines 240-255): cancel any pending retry timer, close
the socket if its readyState is below CLOSING (notifying "disconnected"), and
clear the stored credentials. -/
def disconnect (s : ClientState) : ClientState × List Out :=
  let cancelOuts : List Out := if s.reconnectTimeout.isSome then [Out.cancelTimer] else []
  let s1 : ClientState := { s with reconnectTimeout := none }
  let closes : Bool := match s1.socket with
    | some rs => rs < 2
    | none => false
  let closeOuts : List Out :=
    if closes then Out.connClosed :: notifyConnectionStatus s1 false else []
  let s2 : ClientState := if closes then { s1 with socket := none } else s1
  ({ s2 with transferId := none, signature := none }, cancelOuts ++ closeOuts)

/-- `listenToTransfer` (source lines 89-103): always overwrite the credentials,
install only the observer arguments that were actually supplied, then connect. -/
def listenToTransfer (secure : Bool) (s : ClientState) (tid sig : String)
    (onStatus onError onConnection : Option Nat) : ClientState × List Out :=
  let s1 : ClientState := { s with
    transferId := some tid
    signature := some sig
    onStatusCallback := match onStatus with
      | some f => some f
      | none => s.onStatusCallback
    onErrorCallback := match onError with
      | some f => some f
      | none => s.onErrorCallback
    onConnectionCallback := match onConnection with
      | some f => some f
      | none => s.onConnectionCallback }
  connectWebSocket secure s1

/-- Run the `onclose` handler on a whole sequence of close codes: the state
evolution under consecutive closures with no intervening successful open. -/
def runCloses (capDelay : Nat) (s : ClientState) (codes : List Nat) :
    ClientState × List Out :=
  match codes with
  | [] => (s, [])
  | c :: cs =>
    let p := handleClose capDelay c s
    let q := runCloses capDelay p.1 cs
    (q.1, p.2 ++ q.2)

/-- Number of retry schedulings (`window.setTimeout` for a reconnect) in a
trace: the automatic reconnect attempts. -/
def countRetries (outs : List Out) : Nat :=
  outs.countP fun o => match o with
    | .scheduleRetry _ => true
    | _ => false

/-- Number of socket creations (`new WebSocket`) in a trace. -/
def countOpens (outs : List Out) : Nat :=
  outs.countP fun o => match o with
    | .connOpen _ => true
    | _ => false

/-- Number of observer invocations (connection, status or error callback) in a
trace. -/
def countObserverCalls (outs : List Out) : Nat :=
  outs.countP fun o => match o with
    | .cbConnection _ => true
    | .cbStatus _ => true
    | .cbError _ => true
    | _ => false

/-- Does the `onmessage` dispatcher have a branch for this frame?  Mirrors the
three guard conditions of source lines 192-196. -/
def recognizes (msg : InMsg) : Bool :=
  match msg with
  | .malformed => false
  | .parsed ty transfer message =>
    (ty == some "status" && transfer.isSome) ||
    (ty == some "error" && message.isSome) ||
    (ty == some "ping")

/-- A concrete client state: open socket, credentials stored, all three
observers registered, one retry pending. -/
def sampleState : ClientState :=
  { socket := some 1
    reconnectTimeout := some 1000
    reconnectAttempts := 0
    maxReconnectAttempts := 6
    transferId := some "t1"
    signature := some "s1"
    wsBaseUrl := "transfer-status.zenobiapay.com"
    onStatusCallback := some 1
    onErrorCallback := some 2
    onConnectionCallback := some 3 }

/-- A concrete client state with an error observer but no credentials. -/
def noCredState : ClientState :=
  { init false with onErrorCallback := some 2 }

lemma countRetries_nil : countRetries [] = 0 := rfl

lemma countRetries_append (l₁ l₂ : List Out) :
    countRetries (l₁ ++ l₂) = countRetries l₁ + countRetries l₂ :=
  List.countP_append _ _ _

lemma countRetries_notify (s : ClientState) (b : Bool) :
    countRetries (notifyConnectionStatus s b) = 0 := by
  unfold notifyConnectionStatus countRetries
  split <;> simp

lemma handleClose_fields (capDelay code : Nat) (s : ClientState) :
    (handleClose capDelay code s).1.maxReconnectAttempts = s.maxReconnectAttempts ∧
    (handleClose capDelay code s).1.socket = none ∧
    s.reconnectAttempts ≤ (handleClose capDelay code s).1.reconnectAttempts := by
  by_cases h : code ≠ 1000 ∧ s.reconnectAttempts < s.maxReconnectAttempts <;>
    simp [handleClose, attemptReconnect, h]

lemma handleClose_count (capDelay code : Nat) (s : ClientState) :
    countRetries (handleClose capDelay code s).2 + s.reconnectAttempts =
      (handleClose capDelay code s).1.reconnectAttempts := by
  by_cases h : code ≠ 1000 ∧ s.reconnectAttempts < s.maxReconnectAttempts <;>
  cases htm : s.reconnectTimeout <;>
  cases hcb : s.onConnectionCallback <;>
  simp [handleClose, attemptReconnect, notifyConnectionStatus, h, htm, hcb,
    countRetries, List.countP_append, List.countP_cons] <;> omega

lemma handleClose_le (capDelay code : Nat) (s : ClientState)
    (h : s.reconnectAttempts ≤ s.maxReconnectAttempts) :
    (handleClose capDelay code s).1.reconnectAttempts ≤ s.maxReconnectAttempts := by
  by_cases hc : code ≠ 1000 ∧ s.reconnectAttempts < s.maxReconnectAttempts <;>
    simp [handleClose, attemptReconnect, hc] <;> omega

lemma runCloses_spec (capDelay : Nat) (codes : List Nat) (s : ClientState)
    (h : s.reconnectAttempts ≤ s.maxReconnectAttempts) :
    (runCloses capDelay s codes).1.maxReconnectAttempts = s.maxReconnectAttempts ∧
    (runCloses capDelay s codes).1.reconnectAttempts ≤ s.maxReconnectAttempts ∧
    countRetries (runCloses capDelay s codes).2 + s.reconnectAttempts =
      (runCloses capDelay s codes).1.reconnectAttempts := by
  induction codes generalizing s with
  | nil => simpa [runCloses, countRetries_nil] using h
  | cons c cs ih =>
    have hf := handleClose_fields capDelay c s
    have hc := handleClose_count capDelay c s
    have hl := handleClose_le capDelay c s h
    have ihs := ih (handleClose capDelay c s).1 (by rw [hf.1]; exact hl)
    unfold runCloses
    refine ⟨by rw [ihs.1, hf.1], ?_, ?_⟩
    · simpa [hf.1] using ihs.2.1
    · simpa [countRetries_append] using by omega

/-- C1: over any sequence of abnormal closures starting with a fresh attempt
counter, the number of automatically scheduled reconnect attempts never
exceeds `maxReconnectAttempts` (which the constructor fixes at 6); and once
the counter has reached the cap, a further closure — whatever its code —
schedules no retry, leaves the pending-timer slot untouched and leaves the
session closed (no socket). -/
theorem reconnect_attempts_capped (capDelay : Nat) (s : ClientState)
    (codes : List Nat) (h0 : s.reconnectAttempts = 0) :
    countRetries (runCloses capDelay s codes).2 ≤ s.maxReconnectAttempts ∧
    (init false).maxReconnectAttempts = 6 ∧
    ∀ s' code, s'.reconnectAttempts = s'.maxReconnectAttempts →
      countRetries (handleClose capDelay code s').2 = 0 ∧
      (handleClose capDelay code s').1.reconnectTimeout = s'.reconnectTimeout ∧
      (handleClose capDelay code s').1.socket = none := by
  refine ⟨?_, rfl, ?_⟩
  · have hs := runCloses_spec capDelay codes s (by omega)
    omega
  · intro s' code hmax
    have hcond : ¬(code ≠ 1000 ∧ s'.reconnectAttempts < s'.maxReconnectAttempts) := by
      omega
    simp [handleClose, hcond, countRetries_notify]

/-- C1 witness: six abnormal closures (code 1006) from a freshly constructed
client schedule at most `maxReconnectAttempts` retries. -/
theorem reconnect_attempts_capped_witness :
    countRetries (runCloses 30000 (init false)
        [1006, 1006, 1006, 1006, 1006, 1006, 1006, 1006]).2 ≤
      (init false).maxReconnectAttempts :=
  (reconnect_attempts_capped 30000 (init false)
    [1006, 1006, 1006, 1006, 1006, 1006, 1006, 1006] rfl).1

/-- C2: `attemptReconnect` first increments the attempt counter, to `k`, and
then schedules exactly one retry whose delay is
`min (1000 * 2 ^ (k - 1)) capDelay` milliseconds — the capped exponential
backoff computed from the already-incremented counter (base delay 1000 ms;
`capDelay` is 30000 in the first source variant and 5000 in the second). -/
theorem reconnect_backoff_delay (capDelay : Nat) (s : ClientState) :
    ∃ k, k = s.reconnectAttempts + 1 ∧ 1 ≤ k ∧
      (attemptReconnect capDelay s).1.reconnectAttempts = k ∧
      countRetries (attemptReconnect capDelay s).2 = 1 ∧
      Out.scheduleRetry (min (1000 * 2 ^ (k - 1)) capDelay) ∈
        (attemptReconnect capDelay s).2 := by
  refine ⟨s.reconnectAttempts + 1, rfl, by omega, rfl, ?_, ?_⟩ <;>
  cases htm : s.reconnectTimeout <;>
    simp [attemptReconnect, htm, countRetries, List.countP_cons]

/-- C3: a closure carrying the normal-closure code 1000 never triggers an
automatic reconnect, for every attempt-counter value: no retry is scheduled,
and both the attempt counter and the pending-timer slot are unchanged. -/
theorem normal_close_never_reconnects (capDelay : Nat) (s : ClientState) :
    countRetries (handleClose capDelay 1000 s).2 = 0 ∧
    (handleClose capDelay 1000 s).1.reconnectAttempts = s.reconnectAttempts ∧
    (handleClose capDelay 1000 s).1.reconnectTimeout = s.reconnectTimeout := by
  simp [handleClose, countRetries_notify]

/-- C7: receiving the frame with type `ping` while the socket is OPEN produces
exactly one outbound `pong` frame and nothing else — in particular no status,
error or connection observer is invoked and the state is unchanged. -/
theorem ping_answered_by_pong (s : ClientState) (h : s.socket = some 1) :
    handleMessage (InMsg.parsed (some "ping") none none) s =
      (s, [Out.send "\x7b\"type\":\"pong\"\x7d"]) := by
  simp [handleMessage, h]

/-- C7 witness: the ping/pong exchange at the concrete open-socket state. -/
theorem ping_answered_by_pong_witness :
    sampleState.socket = some 1 ∧
    handleMessage (InMsg.parsed (some "ping") none none) sampleState =
      (sampleState, [Out.send "\x7b\"type\":\"pong\"\x7d"]) :=
  ⟨rfl, ping_answered_by_pong sampleState rfl⟩

/-- C8: the open handler resets the attempt counter to 0 and, when a
connection observer is registered, invokes it with `true` exactly once (the
whole output of the handler is that single invocation). -/
theorem open_resets_attempts (s : ClientState)
    (h : s.onConnectionCallback.isSome) :
    (handleOpen s).1.reconnectAttempts = 0 ∧
    (handleOpen s).2 = [Out.cbConnection true] := by
  simp [handleOpen, notifyConnectionStatus, h]

/-- C8 witness: the open handler at the concrete state. -/
theorem open_resets_attempts_witness :
    sampleState.onConnectionCallback.isSome ∧
    (handleOpen sampleState).1.reconnectAttempts = 0 ∧
    (handleOpen sampleState).2 = [Out.cbConnection true] :=
  ⟨rfl, open_resets_attempts sampleState rfl⟩

lemma connectWebSocket_preserves (secure : Bool) (s : ClientState) :
    (connectWebSocket secure s).1.transferId = s.transferId ∧
    (connectWebSocket secure s).1.signature = s.signature ∧
    (connectWebSocket secure s).1.onStatusCallback = s.onStatusCallback ∧
    (connectWebSocket secure s).1.onErrorCallback = s.onErrorCallback ∧
    (connectWebSocket secure s).1.onConnectionCallback = s.onConnectionCallback := by
  by_cases h : truthy s.transferId && truthy s.signature <;>
    simp [connectWebSocket, h]

/-- C9: whenever the stored transferId and signature are non-empty, the
connection attempt opens exactly one socket, whose endpoint is
`<scheme>//<wsBaseUrl>/transfers/<transferId>/ws?token=<signature>` with the
secure scheme `wss:` exactly when the hosting context is secure; and the
constructor pins `wsBaseUrl` to the fixed status-service host (test or
production). -/
theorem endpoint_url_shape (secure isTest : Bool) (s : ClientState)
    (tid sig : String) (htid : s.transferId = some tid)
    (hsig : s.signature = some sig) (htid' : tid ≠ "") (hsig' : sig ≠ "") :
    Out.connOpen ((if secure then "wss:" else "ws:") ++ "//" ++ s.wsBaseUrl ++
        "/transfers/" ++ tid ++ "/ws?token=" ++ sig) ∈
      (connectWebSocket secure s).2 ∧
    countOpens (connectWebSocket secure s).2 = 1 ∧
    (init isTest).wsBaseUrl = (if isTest then "transfer-status-test.zenobiapay.com"
        else "transfer-status.zenobiapay.com") := by
  have ht : truthy (some tid) = true := by simp [truthy, htid']
  have hs2 : truthy (some sig) = true := by simp [truthy, hsig']
  refine ⟨?_, ?_, by cases isTest <;> rfl⟩ <;>
  cases hsock : s.socket <;>
  cases hcb : s.onConnectionCallback <;>
  simp [connectWebSocket, notifyConnectionStatus, ht, hs2, htid, hsig, hsock,
    hcb, countOpens, List.countP_cons, List.countP_append]

/-- C9 witness: the endpoint computed for a production client tracking
transfer `t1` with signature `s1` in a secure context. -/
theorem endpoint_url_shape_witness :
    sampleState.transferId = some "t1" ∧ sampleState.signature = some "s1" ∧
    Out.connOpen "wss://transfer-status.zenobiapay.com/transfers/t1/ws?token=s1" ∈
      (connectWebSocket true sampleState).2 := by
  refine ⟨rfl, rfl, ?_⟩
  have h := (endpoint_url_shape true false sampleState "t1" "s1" rfl rfl
    (by decide) (by decide)).1
  simpa using h

/-- C10: `listenToTransfer` always overwrites the stored transferId and
signature with the supplied values, while an omitted observer argument leaves
the previously registered callback of that kind exactly as it was — neither
cleared nor replaced. -/
theorem listen_observer_semantics (secure : Bool) (s : ClientState)
    (tid sig : String) (oS oE oC : Option Nat) :
    (listenToTransfer secure s tid sig oS oE oC).1.transferId = some tid ∧
    (listenToTransfer secure s tid sig oS oE oC).1.signature = some sig ∧
    (oS = none →
      (listenToTransfer secure s tid sig oS oE oC).1.onStatusCallback =
        s.onStatusCallback) ∧
    (oE = none →
      (listenToTransfer secure s tid sig oS oE oC).1.onErrorCallback =
        s.onErrorCallback) ∧
    (oC = none →
      (listenToTransfer secure s tid sig oS oE oC).1.onConnectionCallback =
        s.onConnectionCallback) := by
  have hp := connectWebSocket_preserves secure { s with
    transferId := some tid
    signature := some sig
    onStatusCallback := match oS with
      | some f => some f
      | none => s.onStatusCallback
    onErrorCallback := match oE with
      | some f => some f
      | none => s.onErrorCallback
    onConnectionCallback := match oC with
      | some f => some f
      | none => s.onConnectionCallback }
  unfold listenToTransfer
  refine ⟨by simpa using hp.1, by simpa using hp.2.1,
    fun hS => ?_, fun hE => ?_, fun hC => ?_⟩
  · subst hS
    simpa using hp.2.2.1
  · subst hE
    simpa using hp.2.2.2.1
  · subst hC
    simpa using hp.2.2.2.2

/-- C10 witness: omitting every observer argument keeps the registered
callbacks of the concrete state, while the credentials are overwritten. -/
theorem listen_observer_semantics_witness :
    (listenToTransfer true sampleState "t2" "s2" none none none).1.transferId =
        some "t2" ∧
    (listenToTransfer true sampleState "t2" "s2" none none none).1.signature =
        some "s2" ∧
    (listenToTransfer true sampleState "t2" "s2"
        none none none).1.onStatusCallback = sampleState.onStatusCallback ∧
    (listenToTransfer true sampleState "t2" "s2"
        none none none).1.onErrorCallback = sampleState.onErrorCallback ∧
    (listenToTransfer true sampleState "t2" "s2"
        none none none).1.onConnectionCallback =
      sampleState.onConnectionCallback := by
  have h := listen_observer_semantics true sampleState "t2" "s2" none none none
  exact ⟨h.1, h.2.1, h.2.2.1 rfl, h.2.2.2.1 rfl, h.2.2.2.2 rfl⟩

lemma countOpens_handleClose (capDelay code : Nat) (s : ClientState) :
    countOpens (handleClose capDelay code s).2 = 0 := by
  by_cases h : code ≠ 1000 ∧ s.reconnectAttempts < s.maxReconnectAttempts <;>
  cases htm : s.reconnectTimeout <;>
  cases hcb : s.onConnectionCallback <;>
  simp [handleClose, attemptReconnect, notifyConnectionStatus, h, htm, hcb,
    countOpens, List.countP_append, List.countP_cons]

lemma handleClose_preserves_ids (capDelay code : Nat) (s : ClientState) :
    (handleClose capDelay code s).1.transferId = s.transferId := by
  by_cases h : code ≠ 1000 ∧ s.reconnectAttempts < s.maxReconnectAttempts <;>
    simp [handleClose, attemptReconnect, h]

lemma connectWebSocket_dead (secure : Bool) (s : ClientState)
    (hsock : s.socket = none) (htid : s.transferId = none) :
    (connectWebSocket secure s).2 =
      [Out.logError "Cannot connect to WebSocket: Missing transfer ID or signature"] := by
  simp [connectWebSocket, hsock, htid, truthy]

lemma disconnect_state (s : ClientState) :
    (disconnect s).1.reconnectTimeout = none ∧
    (disconnect s).1.transferId = none ∧
    (disconnect s).1.signature = none := by
  cases hsock : s.socket with
  | none => simp [disconnect, hsock]
  | some rs => by_cases hrs : rs < 2 <;> simp [disconnect, hsock, hrs]

/-- C4 counterexample: at the concrete state (open socket, connection observer
registered, one retry pending), after `disconnect()` the delayed close
callback that the already-closed socket later delivers still invokes the
connection observer — refuting the clause that no delayed close/retry
callback ever invokes an observer after `disconnect()` returns. -/
theorem disconnect_stale_close_counterexample :
    (disconnect sampleState).1.onConnectionCallback.isSome ∧
    Out.cbConnection false ∈
      (handleClose 30000 1000 (disconnect sampleState).1).2 := by
  exact ⟨rfl, by decide⟩

/-- C4 amended: `disconnect()` cancels any pending retry timer, closes any
open connection (notifying the connection observer "disconnected") and clears
the stored transferId and signature; afterwards no delayed close or retry
callback can ever open a connection — a delayed close callback schedules at
worst a retry whose firing only logs an error, invoking no observer — but a
delayed close callback does still notify the connection observer
"disconnected" again, since the socket's handlers are not detached. -/
theorem disconnect_terminal (capDelay code : Nat) (secure : Bool)
    (s : ClientState) :
    (disconnect s).1.reconnectTimeout = none ∧
    (disconnect s).1.transferId = none ∧
    (disconnect s).1.signature = none ∧
    (s.reconnectTimeout.isSome → Out.cancelTimer ∈ (disconnect s).2) ∧
    (∀ rs, s.socket = some rs → rs < 2 →
      (disconnect s).1.socket = none ∧
      Out.connClosed ∈ (disconnect s).2 ∧
      (s.onConnectionCallback.isSome →
        Out.cbConnection false ∈ (disconnect s).2)) ∧
    countOpens (handleClose capDelay code (disconnect s).1).2 = 0 ∧
    countOpens
      (connectWebSocket secure (handleClose capDelay code (disconnect s).1).1).2 = 0 ∧
    countObserverCalls
      (connectWebSocket secure (handleClose capDelay code (disconnect s).1).1).2 = 0 := by
  obtain ⟨hd1, hd2, hd3⟩ := disconnect_state s
  have hdead := connectWebSocket_dead secure (handleClose capDelay code (disconnect s).1).1
    (handleClose_fields capDelay code (disconnect s).1).2.1
    (by rw [handleClose_preserves_ids, hd2])
  refine ⟨hd1, hd2, hd3, ?_, ?_, countOpens_handleClose _ _ _, ?_, ?_⟩
  · intro htm
    cases hsock : s.socket with
    | none => simp [disconnect, hsock, htm]
    | some rs => by_cases hrs : rs < 2 <;> simp [disconnect, hsock, hrs, htm]
  · intro rs hsock hrs
    cases htm : s.reconnectTimeout <;>
    cases hcb : s.onConnectionCallback <;>
    simp [disconnect, notifyConnectionStatus, hsock, hrs, htm, hcb]
  · simp [hdead, countOpens, List.countP_cons]
  · simp [hdead, countObserverCalls, List.countP_cons]

/-- C4 amended witness: the concrete state, disconnected and then hit by a
delayed abnormal close whose scheduled retry fires: the timer was cancelled
and no connection is ever opened. -/
theorem disconnect_terminal_witness :
    sampleState.reconnectTimeout.isSome ∧
    Out.cancelTimer ∈ (disconnect sampleState).2 ∧
    countOpens (connectWebSocket true
      (handleClose 30000 1006 (disconnect sampleState).1).1).2 = 0 :=
  ⟨rfl, (disconnect_terminal 30000 1006 true sampleState).2.2.2.1 rfl,
   (disconnect_terminal 30000 1006 true sampleState).2.2.2.2.2.2.1⟩

/-- C5 counterexample: at the concrete state with no credentials but a
registered error observer, the connection attempt produces only a console log
— no observer of any kind is invoked, refuting "reports the failure via the
error observer". -/
theorem missing_credentials_counterexample :
    noCredState.transferId = none ∧ noCredState.onErrorCallback.isSome ∧
    (connectWebSocket true noCredState).2 =
      [Out.logError "Cannot connect to WebSocket: Missing transfer ID or signature"] ∧
    countObserverCalls (connectWebSocket true noCredState).2 = 0 := by
  exact ⟨rfl, rfl, by decide, by decide⟩

/-- C5 amended: attempting to open a connection when transferId or signature
is absent (or empty) makes no connection attempt and only logs the failure to
the console; the error observer is never invoked on this path. -/
theorem missing_credentials_no_attempt (secure : Bool) (s : ClientState)
    (h : truthy s.transferId = false ∨ truthy s.signature = false) :
    countOpens (connectWebSocket secure s).2 = 0 ∧
    Out.logError "Cannot connect to WebSocket: Missing transfer ID or signature" ∈
      (connectWebSocket secure s).2 ∧
    ∀ msg, Out.cbError msg ∉ (connectWebSocket secure s).2 := by
  have hc : (truthy s.transferId && truthy s.signature) = false := by
    rcases h with h | h <;> simp [h]
  refine ⟨?_, ?_, ?_⟩ <;>
  cases hsock : s.socket <;>
  cases hcb : s.onConnectionCallback <;>
  simp [connectWebSocket, notifyConnectionStatus, hc, hsock, hcb, countOpens,
    List.countP_cons, List.countP_append]

/-- C5 amended witness: the credential-less concrete state. -/
theorem missing_credentials_no_attempt_witness :
    truthy noCredState.transferId = false ∧
    countOpens (connectWebSocket true noCredState).2 = 0 :=
  ⟨rfl, (missing_credentials_no_attempt true noCredState (Or.inl rfl)).1⟩

/-- C6 counterexample: a frame that parses but carries the unrecognized type
`bogus` is silently dropped — the registered error observer is not invoked at
all, refuting "invoked exactly once with the generic parse-failure message"
for such frames. -/
theorem unrecognized_frame_counterexample :
    sampleState.onErrorCallback.isSome ∧
    recognizes (InMsg.parsed (some "bogus") none none) = false ∧
    handleMessage (InMsg.parsed (some "bogus") none none) sampleState =
      (sampleState, []) := by
  exact ⟨rfl, rfl, by decide⟩

/-- C6 amended: the message handler never changes the client state (the
connection is never torn down); a frame on which `JSON.parse` throws invokes
the registered error observer exactly once with "Failed to parse message";
but a frame that parses with an unrecognized `type` or missing required
fields is silently ignored — no observer is invoked. -/
theorem parse_failure_reporting (s : ClientState) (msg : InMsg)
    (hcb : s.onErrorCallback.isSome) :
    (handleMessage msg s).1 = s ∧
    (msg = InMsg.malformed →
      (handleMessage msg s).2 = [Out.cbError "Failed to parse message"]) ∧
    (recognizes msg = false → msg ≠ InMsg.malformed →
      (handleMessage msg s).2 = []) := by
  refine ⟨?_, fun hm => ?_, fun hrec hne => ?_⟩
  · cases msg with
    | malformed => rfl
    | parsed ty tr m =>
      simp only [handleMessage]
      split
      · rfl
      · split
        · rfl
        · split <;> rfl
  · subst hm
    simp [handleMessage, notifyError, hcb]
  · cases msg with
    | malformed => exact absurd rfl hne
    | parsed ty tr m =>
      simp [recognizes] at hrec
      have h1 : ¬(ty = some "status" ∧ tr.isSome = true) := by
        rintro ⟨hty, htr⟩
        rw [hrec.1.1 hty] at htr
        simp at htr
      have h2 : ¬(ty = some "error" ∧ m.isSome = true) := by
        rintro ⟨hty, hm⟩
        rw [hrec.1.2 hty] at hm
        simp at hm
      simp [handleMessage, h1, h2, hrec.2]

/-- C6 amended witness: a malformed frame at the concrete state is reported
exactly once. -/
theorem parse_failure_reporting_witness :
    sampleState.onErrorCallback.isSome ∧
    (handleMessage InMsg.malformed sampleState).2 =
      [Out.cbError "Failed to parse message"] :=
  ⟨rfl, (parse_failure_reporting sampleState InMsg.malformed rfl).2.1 rfl⟩

end Zenobia
